import Mathlib

/-!
Shallow embedding of the fastapi-shop authentication/session core and the
stock-adjustment layer, translated from `app`:

* `app/core/security.py` — password hashing, JWT issue/verify, token fingerprint
* `app/repositories/refresh_token.py`, `app/repositories/user.py`,
  `app/repositories/base.py`, `app/repositories/product.py` — store operations
  over an explicit in-memory database state
* `app/services/auth_service.py`, `app/services/product_service.py` — the
  service-layer operations

Machine conventions: Python strings and byte strings are lists of naturals,
times are integers (seconds), UUIDs are naturals.  Exceptions are modelled
with `Except`; an `HTTPException` branch of a service method is a typed error
constructor, any other Python exception escapes as an `uncaught` error.
-/

namespace FastapiShop

/-- Python exceptions that the modelled code can raise. -/
inductive PyErr where
  | valueError
  | typeError
  | integrityError
  | multipleResults
  | invalidSignature
  | expiredSignature
  | validationError
  deriving DecidableEq, Repr

/-- UTF-8 byte strings (passwords, emails, issuer strings, ...). -/
abbrev Bytes := List Nat

/-- Boolean success test for `Except`. -/
def exOk {ε α : Type} : Except ε α → Bool
  | .ok _ => true
  | .error _ => false

/-- Decidable equality on `Except`, needed to evaluate the model on concrete
inputs. -/
instance instDecEqExcept {ε α : Type} [DecidableEq ε] [DecidableEq α] :
    DecidableEq (Except ε α) := fun x y =>
  match x, y with
  | .ok a, .ok b =>
    if h : a = b then .isTrue (by rw [h])
    else .isFalse (by intro hc; cases hc; exact h rfl)
  | .error a, .error b =>
    if h : a = b then .isTrue (by rw [h])
    else .isFalse (by intro hc; cases hc; exact h rfl)
  | .ok _, .error _ => .isFalse (by intro hc; cases hc)
  | .error _, .ok _ => .isFalse (by intro hc; cases hc)

/-! ## PasswordHasher — `app/core/security.py` lines 10-92 -/

/-- Maximum password length in bytes for bcrypt (`BCRYPT_MAX_BYTES`). -/
def BCRYPT_MAX_BYTES : Nat := 72

/-- A stored bcrypt hash string: either a well-formed bcrypt hash, recording
the salt and the digest of the (72-byte-truncated) password bytes, or a
malformed string that bcrypt rejects.  bcrypt's digest is modelled as
injective in (truncated password, salt). -/
inductive HashStr where
  | wellFormed (digest : Bytes) (salt : Nat)
  | malformed
  deriving DecidableEq, Repr

/-- bcrypt.hashpw: salted hash of the password, truncated at 72 bytes. -/
def bcrypt_hashpw (password : Bytes) (salt : Nat) : HashStr :=
  .wellFormed (password.take BCRYPT_MAX_BYTES) salt

/-- bcrypt.checkpw: raises on a malformed stored hash, otherwise compares the
truncated candidate against the stored digest. -/
def bcrypt_checkpw (password : Bytes) (hashed : HashStr) : Except PyErr Bool :=
  match hashed with
  | .malformed => .error .valueError
  | .wellFormed digest _ => .ok (password.take BCRYPT_MAX_BYTES == digest)

/-- `_ensure_password_length` (security.py lines 14-33): ValueError when the
UTF-8 encoding exceeds 72 bytes.  (The TypeError branch is unreachable here:
inputs are byte strings by type.) -/
def _ensure_password_length (password : Bytes) : Except PyErr Unit :=
  if password.length > BCRYPT_MAX_BYTES then .error .valueError else .ok ()

/-- `hash_password` (security.py lines 36-57): length check, then salted
bcrypt hash.  The fresh salt from `bcrypt.gensalt()` is passed explicitly. -/
def hash_password (password : Bytes) (salt : Nat) : Except PyErr HashStr :=
  match _ensure_password_length password with
  | .error e => .error e
  | .ok _ => .ok (bcrypt_hashpw password salt)

/-- `verify_password` (security.py lines 60-92): false for an empty password,
false for an over-long password (ValueError caught), false when bcrypt raises
(any exception caught), otherwise the bcrypt comparison result. -/
def verify_password (plain_password : Bytes) (hashed_password : HashStr) :
    Except PyErr Bool :=
  if plain_password = [] then .ok false
  else
    match _ensure_password_length plain_password with
    | .error _ => .ok false
    | .ok _ =>
      match bcrypt_checkpw plain_password hashed_password with
      | .error _ => .ok false
      | .ok b => .ok b

/-- The boolean value of `verify_password` as used by callers (the function
provably never raises, see the theorems below). -/
def verify_password_bool (plain_password : Bytes) (hashed_password : HashStr) :
    Bool :=
  match verify_password plain_password hashed_password with
  | .ok b => b
  | .error _ => false

/-! ## TokenCodec — `app/core/security.py` lines 95-207 and `app/core/config.py` -/

/-- The value found in the `sub` claim of a decoded payload.  A JSON string
that parses as a UUID is abstracted by the UUID value it denotes; non-UUID
strings and JSON numbers are kept as distinct malformed shapes because
`uuid.UUID` raises differently on them. -/
inductive SubClaim where
  | uuidStr (u : Nat)
  | nonUuidStr
  | intVal (n : Int)
  deriving DecidableEq, Repr

/-- A decoded JWT payload, with the claims the code writes and reads
(`sub`, `exp`, `iat`, `iss`, `jti`, `type`).  A missing `sub` claim is
`none`. -/
structure Payload where
  sub : Option SubClaim
  exp : Int
  iat : Int
  iss : Bytes
  jti : Nat
  type : Bytes
  deriving DecidableEq, Repr

/-- An encoded, signed JWT string: the payload together with the signing key
and algorithm that produced it.  Signature verification is modelled as
comparison of key and algorithm (HMAC forgery and collisions are out of
scope). -/
structure Token where
  payload : Payload
  key : Nat
  alg : Nat
  deriving DecidableEq, Repr

/-- The `Settings` object of `app/core/config.py` (the fields the modelled
code reads).  TTLs are minutes resp. days, as in the source. -/
structure Settings where
  SECRET_KEY : Nat
  REFRESH_TOKEN_SECRET : Nat
  ALGORITHM : Nat
  ACCESS_TOKEN_EXPIRE_MINUTES : Int
  REFRESH_TOKEN_EXPIRE_DAYS : Int
  TOKEN_ISSUER : Bytes
  deriving DecidableEq, Repr

/-- The UTF-8 bytes of the string "access". -/
def strAccess : Bytes := [97, 99, 99, 101, 115, 115]

/-- The UTF-8 bytes of the string "refresh". -/
def strRefresh : Bytes := [114, 101, 102, 114, 101, 115, 104]

/-- jwt.encode. -/
def jwt_encode (payload : Payload) (key : Nat) (alg : Nat) : Token :=
  ⟨payload, key, alg⟩

/-- jwt.decode with `verify_signature`, `verify_exp`, `verify_iat` — exactly
the options the source passes.  No `issuer` argument is given in the source,
so PyJWT performs no issuer check; none is modelled.  Order of checks follows
PyJWT: algorithm, signature, then registered claims. -/
def jwt_decode (tok : Token) (key : Nat) (algs : List Nat) (now : Int) :
    Except PyErr Payload :=
  if tok.alg ∈ algs then
    if tok.key = key then
      if tok.payload.exp ≤ now then .error .expiredSignature
      else .ok tok.payload
    else .error .invalidSignature
  else .error .invalidSignature

/-- `create_access_token` (security.py lines 96-117): the service passes
`data={"sub": ...}`, so the data dict is modelled by its `sub` entry;
`exp`, `iat`, `iss`, `jti`, `type` are then set as in the source and the
result is signed with `SECRET_KEY`.  `now` and the fresh `jti` are passed
explicitly. -/
def create_access_token (s : Settings) (now : Int) (jti : Nat)
    (data : Option SubClaim) : Token :=
  jwt_encode
    ⟨data, now + s.ACCESS_TOKEN_EXPIRE_MINUTES * 60, now, s.TOKEN_ISSUER,
      jti, strAccess⟩
    s.SECRET_KEY s.ALGORITHM

/-- `create_refresh_token` (security.py lines 121-141): same shape with
`type="refresh"`, the refresh TTL, and the `REFRESH_TOKEN_SECRET`. -/
def create_refresh_token (s : Settings) (now : Int) (jti : Nat)
    (data : Option SubClaim) : Token :=
  jwt_encode
    ⟨data, now + s.REFRESH_TOKEN_EXPIRE_DAYS * 86400, now, s.TOKEN_ISSUER,
      jti, strRefresh⟩
    s.REFRESH_TOKEN_SECRET s.ALGORITHM

/-- `decode_access_token` (security.py lines 145-167). -/
def decode_access_token (s : Settings) (tok : Token) (now : Int) :
    Except PyErr Payload :=
  jwt_decode tok s.SECRET_KEY [s.ALGORITHM] now

/-- `decode_refresh_token` (security.py lines 171-193). -/
def decode_refresh_token (s : Settings) (tok : Token) (now : Int) :
    Except PyErr Payload :=
  jwt_decode tok s.REFRESH_TOKEN_SECRET [s.ALGORITHM] now

/-- `hash_refresh_token` (security.py lines 197-207): SHA-256 fingerprint of
the encoded token string.  SHA-256 is one-way and collision-free for all
practical purposes, so it is modelled as an injective function; we take the
token itself as its own fingerprint value. -/
def hash_refresh_token (token : Token) : Token := token

/-! ## Persisted state — `app/models/user.py`, `app/models/refresh_token.py` -/

/-- A row of the `users` table (the columns the modelled code reads).
Schema facts used below: `email` carries an unconditional UNIQUE constraint
(`unique=True`, over deleted and non-deleted rows alike) and `id` is the
primary key. -/
structure UserRow where
  id : Nat
  email : Bytes
  hashed_password : HashStr
  is_active : Bool
  is_verified : Bool
  is_deleted : Bool
  deriving DecidableEq, Repr

/-- A row of the `refresh_tokens` table.  `token_hash` is UNIQUE, `id` is the
primary key. -/
structure TokenRow where
  id : Nat
  token_hash : Token
  user_id : Nat
  expires_at : Int
  is_revoked : Bool
  is_deleted : Bool
  device_info : Option Bytes
  deriving DecidableEq, Repr

/-- The database state the auth subsystem touches. -/
structure DB where
  users : List UserRow
  tokens : List TokenRow
  deriving DecidableEq, Repr

/-- scalar_one_or_none over a result list: none for no row, the row when
unique, MultipleResultsFound otherwise. -/
def scalar_one_or_none {α : Type} (rows : List α) : Except PyErr (Option α) :=
  match rows with
  | [] => .ok none
  | [r] => .ok (some r)
  | _ => .error .multipleResults

/-! ## RefreshTokenRepository — `app/repositories/refresh_token.py` -/

/-- `get_by_token_hash` (lines 26-52): SELECT by hash with the optional
`is_revoked`/`is_deleted` filters. -/
def get_by_token_hash (db : DB) (token_hash : Token)
    (include_revoked : Bool) (include_deleted : Bool) :
    Except PyErr (Option TokenRow) :=
  scalar_one_or_none <| db.tokens.filter fun r =>
    r.token_hash == token_hash
      && (include_revoked || !r.is_revoked)
      && (include_deleted || !r.is_deleted)

/-- `is_token_valid` (lines 82-108): EXISTS a row with this hash, not
revoked, not deleted, expiring strictly after `now`. -/
def is_token_valid (db : DB) (token_hash : Token) (now : Int) : Bool :=
  db.tokens.any fun r =>
    r.token_hash == token_hash && !r.is_revoked && !r.is_deleted
      && now < r.expires_at

/-- `revoke_token` (lines 110-134): bulk UPDATE setting `is_revoked` on every
row matching (hash, not deleted, not revoked); returns the new state and
whether the rowcount was positive. -/
def revoke_token (db : DB) (token_hash : Token) : DB × Bool :=
  let hit : TokenRow → Bool := fun r =>
    r.token_hash == token_hash && !r.is_deleted && !r.is_revoked
  let tokens := db.tokens.map fun r =>
    if hit r then { r with is_revoked := true } else r
  (⟨db.users, tokens⟩, (db.tokens.filter hit).length != 0)

/-- `revoke_all_user_tokens` (lines 136-160): bulk UPDATE setting
`is_revoked` on every active row of the user; returns the rowcount. -/
def revoke_all_user_tokens (db : DB) (user_id : Nat) : DB × Nat :=
  let hit : TokenRow → Bool := fun r =>
    r.user_id == user_id && !r.is_deleted && !r.is_revoked
  let tokens := db.tokens.map fun r =>
    if hit r then { r with is_revoked := true } else r
  (⟨db.users, tokens⟩, (db.tokens.filter hit).length)

/-- `BaseRepository.create` for token rows (base.py lines 91-104): the INSERT
is checked against the table's constraints — UNIQUE(token_hash) and the
primary key. -/
def token_repo_create (db : DB) (row : TokenRow) : Except PyErr DB :=
  if db.tokens.any fun r => r.token_hash == row.token_hash then
    .error .integrityError
  else if db.tokens.any fun r => r.id == row.id then
    .error .integrityError
  else .ok ⟨db.users, db.tokens ++ [row]⟩

/-! ## UserRepository — `app/repositories/user.py`, `app/repositories/base.py` -/

/-- `get_by_email` (user.py lines 24-45). -/
def get_by_email (db : DB) (email : Bytes) (include_deleted : Bool) :
    Except PyErr (Option UserRow) :=
  scalar_one_or_none <| db.users.filter fun u =>
    u.email == email && (include_deleted || !u.is_deleted)

/-- `email_exists` (user.py lines 47-74): EXISTS over non-deleted rows only,
optionally excluding one user id. -/
def email_exists (db : DB) (email : Bytes) (exclude_user_id : Option Nat) :
    Bool :=
  db.users.any fun u =>
    u.email == email && !u.is_deleted
      && (match exclude_user_id with
          | some ex => u.id != ex
          | none => true)

/-- `BaseRepository.get_by_id` for users (base.py lines 24-45). -/
def user_get_by_id (db : DB) (id : Nat) (include_deleted : Bool) :
    Except PyErr (Option UserRow) :=
  scalar_one_or_none <| db.users.filter fun u =>
    u.id == id && (include_deleted || !u.is_deleted)

/-- `BaseRepository.create` for user rows (base.py lines 91-104): the INSERT
is checked against UNIQUE(email) — which the schema applies over all rows,
deleted or not — and the primary key. -/
def user_repo_create (db : DB) (row : UserRow) : Except PyErr DB :=
  if db.users.any fun u => u.email == row.email then
    .error .integrityError
  else if db.users.any fun u => u.id == row.id then
    .error .integrityError
  else .ok ⟨db.users ++ [row], db.tokens⟩

/-- `BaseRepository.update` for users, specialised to the one field the auth
service updates (base.py lines 106-131, called with
`hashed_password=...`): load via `get_by_id` (non-deleted filter), mutate the
loaded row, flush.  Returns the new state and the updated row (`none` when
the row was absent). -/
def user_repo_update_password (db : DB) (id : Nat) (h : HashStr) :
    Except PyErr (DB × Option UserRow) :=
  match user_get_by_id db id false with
  | .error e => .error e
  | .ok none => .ok (db, none)
  | .ok (some u) =>
    let u' := { u with hashed_password := h }
    .ok (⟨db.users.map fun v => if v.id == id && !v.is_deleted then u' else v,
          db.tokens⟩, some u')

/-- `BaseRepository.soft_delete` for users (base.py lines 133-155). -/
def user_soft_delete (db : DB) (id : Nat) : Except PyErr (DB × Bool) :=
  match user_get_by_id db id false with
  | .error e => .error e
  | .ok none => .ok (db, false)
  | .ok (some u) =>
    let u' := { u with is_deleted := true }
    .ok (⟨db.users.map fun v => if v.id == id && !v.is_deleted then u' else v,
          db.tokens⟩, true)

/-! ## AuthService — `app/services/auth_service.py` -/

/-- Errors escaping an AuthService method: each constructor is one
`HTTPException` branch of the source (the comment gives status and detail),
except `uncaught`, which marks a Python exception that no branch catches.
The spec's names map as: `tokenInvalid` = TokenInvalid, `sessionNotFound`
and `sessionExpiredOrRevoked` = SessionNotFound, `emailTaken` = EmailTaken,
`invalidCredentials` = InvalidCredentials, `accountInactive` =
AccountInactive, `userNotFound` = UserNotFound. -/
inductive AuthErr where
  | emailTaken
  | invalidCredentials
  | accountInactive
  | tokenInvalid
  | sessionNotFound
  | sessionExpiredOrRevoked
  | userNotFound
  | uncaught (e : PyErr)
  deriving DecidableEq, Repr

/-- The pair returned by `_create_tokens_for_user` (schemas/auth.py
`TokenResponse`; `token_type` is the constant "bearer"). -/
structure TokenResponse where
  access_token : Token
  refresh_token : Token
  deriving DecidableEq, Repr

/-- Fresh random values a token-pair creation consumes: the two `uuid4` jti
values and the new row's primary key. -/
structure Fresh where
  accessJti : Nat
  refreshJti : Nat
  rowId : Nat
  deriving DecidableEq, Repr

/-- `uuid.UUID(payload.get("sub"))` (auth_service.py line 142): `None` and
non-string values raise TypeError, a string that is not a well-formed UUID
raises ValueError, a well-formed UUID string yields its UUID.  In the source
this call sits outside the try/except that guards decoding. -/
def uuid_UUID : Option SubClaim → Except PyErr Nat
  | some (.uuidStr u) => .ok u
  | some .nonUuidStr => .error .valueError
  | some (.intVal _) => .error .typeError
  | none => .error .typeError

/-- `AuthService._create_tokens_for_user` (lines 266-304): issue the access
and refresh tokens for `sub = str(user_id)`, fingerprint the refresh token,
insert the session row with expiry `now + REFRESH_TOKEN_EXPIRE_DAYS`, return
the pair. -/
def _create_tokens_for_user (s : Settings) (db : DB) (user_id : Nat)
    (device_info : Option Bytes) (now : Int) (fr : Fresh) :
    Except AuthErr (DB × TokenResponse) :=
  let access := create_access_token s now fr.accessJti (some (.uuidStr user_id))
  let refresh := create_refresh_token s now fr.refreshJti (some (.uuidStr user_id))
  let token_hash := hash_refresh_token refresh
  let expires_at := now + s.REFRESH_TOKEN_EXPIRE_DAYS * 86400
  match token_repo_create db
      ⟨fr.rowId, token_hash, user_id, expires_at, false, false, device_info⟩ with
  | .error e => .error (.uncaught e)
  | .ok db' => .ok (db', ⟨access, refresh⟩)

/-- `AuthService.register` (lines 41-78): EmailTaken when `email_exists`
(non-deleted rows only), else hash the password, insert the user row with
the column defaults `is_active=true`, `is_verified=false`,
`is_deleted=false`, and issue a token pair.  The fresh user id and bcrypt
salt are passed explicitly. -/
def register (s : Settings) (db : DB) (email : Bytes) (password : Bytes)
    (device_info : Option Bytes) (now : Int) (newUserId : Nat) (salt : Nat)
    (fr : Fresh) : Except AuthErr (DB × UserRow × TokenResponse) :=
  if email_exists db email none then .error .emailTaken
  else
    match hash_password password salt with
    | .error e => .error (.uncaught e)
    | .ok hp =>
      let u : UserRow := ⟨newUserId, email, hp, true, false, false⟩
      match user_repo_create db u with
      | .error e => .error (.uncaught e)
      | .ok db1 =>
        match _create_tokens_for_user s db1 u.id device_info now fr with
        | .error e => .error e
        | .ok (db2, t) => .ok (db2, u, t)

/-- `AuthService.login` (lines 80-114): lookup by email; InvalidCredentials
when absent or the password does not verify; AccountInactive when
`is_active` is false; else issue a token pair. -/
def login (s : Settings) (db : DB) (email : Bytes) (password : Bytes)
    (device_info : Option Bytes) (now : Int) (fr : Fresh) :
    Except AuthErr (DB × UserRow × TokenResponse) :=
  match get_by_email db email false with
  | .error e => .error (.uncaught e)
  | .ok none => .error .invalidCredentials
  | .ok (some user) =>
    if !verify_password_bool password user.hashed_password then
      .error .invalidCredentials
    else if !user.is_active then .error .accountInactive
    else
      match _create_tokens_for_user s db user.id device_info now fr with
      | .error e => .error e
      | .ok (db', t) => .ok (db', user, t)

/-- `AuthService.refresh_tokens` (lines 116-162): decode (any decode failure
caught and mapped to 401 "Invalid refresh token"); `uuid.UUID(sub)` outside
the try; lookup by fingerprint (401 "Invalid refresh token" when absent or
owned by another user); 401 "Refresh token expired or revoked" when
`is_token_valid` is false; revoke the presented fingerprint (result
ignored); issue a new pair. -/
def refresh_tokens (s : Settings) (db : DB) (tok : Token)
    (device_info : Option Bytes) (now : Int) (fr : Fresh) :
    Except AuthErr (DB × TokenResponse) :=
  match decode_refresh_token s tok now with
  | .error _ => .error .tokenInvalid
  | .ok payload =>
    match uuid_UUID payload.sub with
    | .error e => .error (.uncaught e)
    | .ok user_id =>
      let token_hash := hash_refresh_token tok
      match get_by_token_hash db token_hash false false with
      | .error e => .error (.uncaught e)
      | .ok none => .error .sessionNotFound
      | .ok (some db_token) =>
        if db_token.user_id != user_id then .error .sessionNotFound
        else if !is_token_valid db token_hash now then
          .error .sessionExpiredOrRevoked
        else
          let db1 := (revoke_token db token_hash).1
          _create_tokens_for_user s db1 user_id device_info now fr

/-- `AuthService.logout` (lines 164-181): revoke by fingerprint; 401 when
nothing was revoked. -/
def logout (db : DB) (tok : Token) : Except AuthErr DB :=
  let token_hash := hash_refresh_token tok
  let (db', revoked) := revoke_token db token_hash
  if revoked then .ok db' else .error .sessionNotFound

/-- `AuthService.logout_all_devices` (lines 183-194). -/
def logout_all_devices (db : DB) (user_id : Nat) : DB × Nat :=
  revoke_all_user_tokens db user_id

/-- `AuthService.change_password` (lines 196-232): UserNotFound when the user
is absent; InvalidCredentials when the old password does not verify; persist
the new hash via the generic update; revoke all the user's tokens. -/
def change_password (db : DB) (user_id : Nat)
    (old_password new_password : Bytes) (salt : Nat) : Except AuthErr DB :=
  match user_get_by_id db user_id false with
  | .error e => .error (.uncaught e)
  | .ok none => .error .userNotFound
  | .ok (some user) =>
    if !verify_password_bool old_password user.hashed_password then
      .error .invalidCredentials
    else
      match hash_password new_password salt with
      | .error e => .error (.uncaught e)
      | .ok hp =>
        match user_repo_update_password db user_id hp with
        | .error e => .error (.uncaught e)
        | .ok (db1, _) => .ok (revoke_all_user_tokens db1 user_id).1

/-! ## StockLedger — `app/repositories/product.py`, `app/services/product_service.py` -/

/-- A row of the `products` table (the columns the stock operations read). -/
structure ProductRow where
  id : Nat
  stock_quantity : Int
  is_active : Bool
  is_deleted : Bool
  deriving DecidableEq, Repr

/-- The product table state. -/
structure ProductDB where
  products : List ProductRow
  deriving DecidableEq, Repr

/-- Errors escaping a stock operation, one constructor per `HTTPException`
branch of `ProductService` plus `uncaught` Python exceptions. -/
inductive StockErr where
  | productNotFound
  | insufficientStock
  | invalidQuantity
  | uncaught (e : PyErr)
  deriving DecidableEq, Repr

/-- `BaseRepository.get_by_id` for products (base.py lines 24-45). -/
def product_get_by_id (db : ProductDB) (id : Nat) (include_deleted : Bool) :
    Except PyErr (Option ProductRow) :=
  scalar_one_or_none <| db.products.filter fun p =>
    p.id == id && (include_deleted || !p.is_deleted)

/-- `BaseRepository.update` for products, specialised to the one field the
stock service writes (base.py lines 106-131, called with
`stock_quantity=new_quantity`): load via `get_by_id`, overwrite the field
with the absolute value, flush. -/
def product_repo_update_stock (db : ProductDB) (id : Nat) (v : Int) :
    Except PyErr (ProductDB × Option ProductRow) :=
  match product_get_by_id db id false with
  | .error e => .error e
  | .ok none => .ok (db, none)
  | .ok (some p) =>
    let p' := { p with stock_quantity := v }
    .ok (⟨db.products.map fun r =>
            if r.id == id && !r.is_deleted then p' else r⟩, some p')

/-- `ProductRepository.atomic_update_stock` (product.py lines 321-363): the
single conditional UPDATE
`SET stock_quantity = stock_quantity + delta WHERE id = .. AND NOT is_deleted
AND stock_quantity + delta >= 0` with RETURNING, read back via
scalar_one_or_none.  Defined in the repository — but, as proved below, never
called by `ProductService`. -/
def atomic_update_stock (db : ProductDB) (id : Nat) (delta : Int) :
    Except PyErr (ProductDB × Option ProductRow) :=
  let hit : ProductRow → Bool := fun p =>
    p.id == id && !p.is_deleted && 0 ≤ p.stock_quantity + delta
  let db' : ProductDB := ⟨db.products.map fun p =>
    if hit p then { p with stock_quantity := p.stock_quantity + delta } else p⟩
  match scalar_one_or_none (db.products.filter hit) with
  | .error e => .error e
  | .ok none => .ok (db, none)
  | .ok (some p) =>
    .ok (db', some { p with stock_quantity := p.stock_quantity + delta })

/-- First half of `ProductService.update_stock` (lines 248-262): the SELECT,
the application-layer computation `new_quantity = stock + delta`, and the
negativity check — producing the absolute quantity that the second half will
write.  The two halves are separated by an `await`, so statements of other
requests can run in between. -/
def update_stock_read (db : ProductDB) (id : Nat) (delta : Int) :
    Except StockErr Int :=
  match product_get_by_id db id false with
  | .error e => .error (.uncaught e)
  | .ok none => .error .productNotFound
  | .ok (some p) =>
    let new_quantity := p.stock_quantity + delta
    if new_quantity < 0 then .error .insufficientStock
    else .ok new_quantity

/-- Second half of `ProductService.update_stock` (lines 265-270): write the
absolute quantity through the generic repository update and validate the
response (`model_validate(None)` raises when the row vanished). -/
def update_stock_write (db : ProductDB) (id : Nat)
    (r : Except StockErr Int) : Except StockErr ProductRow × ProductDB :=
  match r with
  | .error e => (.error e, db)
  | .ok new_quantity =>
    match product_repo_update_stock db id new_quantity with
    | .error e => (.error (.uncaught e), db)
    | .ok (_, none) => (.error (.uncaught .validationError), db)
    | .ok (db', some p) => (.ok p, db')

/-- `ProductService.update_stock` (lines 229-270) run without interference:
the read half followed at once by the write half. -/
def update_stock (db : ProductDB) (id : Nat) (delta : Int) :
    Except StockErr ProductRow × ProductDB :=
  update_stock_write db id (update_stock_read db id delta)

/-- The read half of `ProductService.decrease_stock` (lines 299-326):
InvalidQuantity unless `quantity > 0`, then `update_stock(id, -quantity)`. -/
def decrease_stock_read (db : ProductDB) (id : Nat) (quantity : Int) :
    Except StockErr Int :=
  if quantity ≤ 0 then .error .invalidQuantity
  else update_stock_read db id (-quantity)

/-- `ProductService.decrease_stock` run without interference. -/
def decrease_stock (db : ProductDB) (id : Nat) (quantity : Int) :
    Except StockErr ProductRow × ProductDB :=
  update_stock_write db id (decrease_stock_read db id quantity)

/-- Two concurrent `decrease_stock` calls on the same product under the
schedule the service's read-modify-write admits: both SELECT-and-check
halves run before either write.  Returns both outcomes and the final
state. -/
def decrease_stock_racy (db : ProductDB) (id : Nat) (q1 q2 : Int) :
    Except StockErr ProductRow × Except StockErr ProductRow × ProductDB :=
  let r1 := decrease_stock_read db id q1
  let r2 := decrease_stock_read db id q2
  let (o1, db1) := update_stock_write db id r1
  let (o2, db2) := update_stock_write db1 id r2
  (o1, o2, db2)

/-! ## Helper lemmas -/

/-- Filtering commutes with mapping: the filter of a mapped list is the map
of the list filtered by the precomposed predicate. -/
theorem filter_map_comm {α β : Type} (l : List α) (f : α → β) (p : β → Bool) :
    (l.map f).filter p = (l.filter fun a => p (f a)).map f := by
  induction l with
  | nil => rfl
  | cons a t ih =>
    simp only [List.map_cons, List.filter_cons]
    split <;> simp_all

/-- A singleton filter result pins down every element satisfying the
predicate. -/
theorem eq_of_filter_eq_single {α : Type} {l : List α} {p : α → Bool} {a x : α}
    (hl : l.filter p = [a]) (hx : x ∈ l) (hpx : p x = true) : x = a := by
  have : x ∈ l.filter p := List.mem_filter.mpr ⟨hx, hpx⟩
  rw [hl] at this
  simpa using this

/-- scalar_one_or_none returns a row exactly on a singleton result. -/
theorem scalar_one_or_none_ok_some {α : Type} (l : List α) (a : α) :
    scalar_one_or_none l = .ok (some a) ↔ l = [a] := by
  rcases l with _ | ⟨x, _ | ⟨y, t⟩⟩ <;> simp [scalar_one_or_none]

/-- scalar_one_or_none returns none exactly on an empty result. -/
theorem scalar_one_or_none_ok_none {α : Type} (l : List α) :
    scalar_one_or_none l = .ok none ↔ l = [] := by
  rcases l with _ | ⟨x, _ | ⟨y, t⟩⟩ <;> simp [scalar_one_or_none]

/-- Success characterisation of `jwt_decode`: the algorithm is accepted, the
key matches, the token is unexpired, and the payload is returned as is. -/
theorem jwt_decode_ok_iff (tok : Token) (key : Nat) (algs : List Nat)
    (now : Int) (p : Payload) :
    jwt_decode tok key algs now = .ok p ↔
      tok.alg ∈ algs ∧ tok.key = key ∧ now < tok.payload.exp
        ∧ p = tok.payload := by
  unfold jwt_decode
  split_ifs with h1 h2 h3 <;> simp_all [eq_comm, not_le]

/-- `revoke_token` keeps the user table unchanged. -/
theorem revoke_token_users (db : DB) (th : Token) :
    ((revoke_token db th).1).users = db.users := rfl

/-- Every row of the state after `revoke_token` comes from a source row with
the same values in every column except possibly `is_revoked`. -/
theorem mem_revoke_token (db : DB) (th : Token) (r' : TokenRow)
    (h : r' ∈ ((revoke_token db th).1).tokens) :
    ∃ r ∈ db.tokens, r'.token_hash = r.token_hash ∧ r'.id = r.id
      ∧ r'.user_id = r.user_id ∧ r'.is_deleted = r.is_deleted
      ∧ r'.expires_at = r.expires_at := by
  simp only [revoke_token, List.mem_map] at h
  obtain ⟨r, hr, hmap⟩ := h
  refine ⟨r, hr, ?_⟩
  by_cases hc : (r.token_hash == th && !r.is_deleted && !r.is_revoked) = true <;>
    simp [hc] at hmap <;> simp [← hmap]

/-- After `revoke_token db th`, the active-row lookup for `th` finds
nothing: every matching row has been revoked (or was already revoked or
deleted). -/
theorem filter_after_revoke (db : DB) (th : Token) :
    (((revoke_token db th).1).tokens.filter fun r =>
      r.token_hash == th && (false || !r.is_revoked)
        && (false || !r.is_deleted)) = [] := by
  simp only [revoke_token]
  rw [filter_map_comm]
  have : (db.tokens.filter fun r =>
      (if r.token_hash == th && !r.is_deleted && !r.is_revoked
        then { r with is_revoked := true } else r).token_hash == th
      && (false || !(if r.token_hash == th && !r.is_deleted && !r.is_revoked
        then { r with is_revoked := true } else r).is_revoked)
      && (false || !(if r.token_hash == th && !r.is_deleted && !r.is_revoked
        then { r with is_revoked := true } else r).is_deleted)) = [] := by
    rw [List.filter_eq_nil_iff]
    intro r hr
    cases h1 : r.token_hash == th <;> cases h2 : r.is_deleted <;>
      cases h3 : r.is_revoked <;> simp [h1, h2, h3]
  rw [this]
  rfl

/-- Success characterisation of `_create_tokens_for_user`: the uniqueness
checks on the INSERT pass, the new session row is appended, and the response
carries the freshly issued pair. -/
theorem create_tokens_ok_iff (s : Settings) (db : DB) (uid : Nat)
    (di : Option Bytes) (now : Int) (fr : Fresh) (db' : DB)
    (resp : TokenResponse) :
    _create_tokens_for_user s db uid di now fr = .ok (db', resp) ↔
      ((db.tokens.any fun r => r.token_hash ==
          create_refresh_token s now fr.refreshJti (some (.uuidStr uid))) = false
      ∧ (db.tokens.any fun r => r.id == fr.rowId) = false
      ∧ db' = ⟨db.users, db.tokens ++
          [⟨fr.rowId, create_refresh_token s now fr.refreshJti
              (some (.uuidStr uid)), uid,
            now + s.REFRESH_TOKEN_EXPIRE_DAYS * 86400, false, false, di⟩]⟩
      ∧ resp = ⟨create_access_token s now fr.accessJti (some (.uuidStr uid)),
          create_refresh_token s now fr.refreshJti (some (.uuidStr uid))⟩) := by
  simp only [_create_tokens_for_user, token_repo_create, hash_refresh_token]
  split_ifs with h1 h2
  · simp [h1]
  · simp [h1, h2]
  · simp [h1, h2, eq_comm]

/-! ## C6 / C7 — PasswordHasher properties -/

/-- C6: `verify_password` never raises: for every password and stored-hash
input it returns a boolean; specifically it returns false for an empty
password, for a password whose UTF-8 encoding exceeds 72 bytes, and for a
malformed stored hash (where the underlying bcrypt comparison raises). -/
theorem verify_password_never_raises (p : Bytes) (h : HashStr) :
    (∃ b, verify_password p h = .ok b)
    ∧ (p = [] → verify_password p h = .ok false)
    ∧ (BCRYPT_MAX_BYTES < p.length → verify_password p h = .ok false)
    ∧ verify_password p .malformed = .ok false := by
  refine ⟨?_, ?_, ?_, ?_⟩
  · unfold verify_password
    split
    · exact ⟨false, rfl⟩
    · cases hE : _ensure_password_length p with
      | error e => exact ⟨false, rfl⟩
      | ok u =>
        cases hC : bcrypt_checkpw p h with
        | error e => exact ⟨false, rfl⟩
        | ok b => exact ⟨b, rfl⟩
  · intro hp
    simp [verify_password, hp]
  · intro hlong
    have hne : p ≠ [] := by
      intro hcon
      rw [hcon] at hlong
      simp [BCRYPT_MAX_BYTES] at hlong
    simp [verify_password, _ensure_password_length, hne, hlong]
  · by_cases hp : p = []
    · simp [verify_password, hp]
    · by_cases hlong : BCRYPT_MAX_BYTES < p.length
      · simp [verify_password, _ensure_password_length, hp, hlong]
      · simp [verify_password, _ensure_password_length, bcrypt_checkpw, hp,
          hlong]

/-- Witness for C6 at concrete inputs. -/
theorem verify_password_never_raises_witness :
    verify_password [] (.wellFormed [5] 0) = .ok false
    ∧ verify_password [1, 2] .malformed = .ok false := by
  constructor
  · exact (verify_password_never_raises [] (.wellFormed [5] 0)).2.1 rfl
  · exact (verify_password_never_raises [1, 2] .malformed).2.2.2

/-- Core round-trip fact about hashing and verification, shared by several
developments below. -/
theorem hash_verify_roundtrip_aux (p p2 : Bytes) (salt : Nat) (hne : p ≠ [])
    (hlen : p.length ≤ BCRYPT_MAX_BYTES) (hne2 : p2 ≠ p) :
    hash_password p salt = .ok (bcrypt_hashpw p salt)
    ∧ verify_password p (bcrypt_hashpw p salt) = .ok true
    ∧ verify_password p2 (bcrypt_hashpw p salt) = .ok false := by
  have hlen' : ¬ BCRYPT_MAX_BYTES < p.length := not_lt.mpr hlen
  have htake : p.take BCRYPT_MAX_BYTES = p := List.take_of_length_le hlen
  refine ⟨?_, ?_, ?_⟩
  · simp [hash_password, _ensure_password_length, hlen']
  · simp [verify_password, _ensure_password_length, bcrypt_checkpw,
      bcrypt_hashpw, hne, hlen']
  · by_cases h2e : p2 = []
    · simp [verify_password, h2e]
    · by_cases h2l : BCRYPT_MAX_BYTES < p2.length
      · simp [verify_password, _ensure_password_length, h2e, h2l]
      · have htake2 : p2.take BCRYPT_MAX_BYTES = p2 :=
          List.take_of_length_le (not_lt.mp h2l)
        have hbne : (p2 == p) = false := beq_eq_false_iff_ne.mpr hne2
        simp [verify_password, _ensure_password_length, bcrypt_checkpw,
          bcrypt_hashpw, h2e, h2l, htake, htake2, hbne]

/-- C7: round-trip of hashing and verification: for every valid password `p`
(nonempty — the schema layer enforces a minimum length of 8 — and at most 72
UTF-8 bytes), hashing succeeds and `verify(p, hash(p))` is true, and for
every other password `p2 ≠ p`, `verify(p2, hash(p))` is false. -/
theorem hash_verify_roundtrip (p p2 : Bytes) (salt : Nat) (hne : p ≠ [])
    (hlen : p.length ≤ BCRYPT_MAX_BYTES) (hne2 : p2 ≠ p) :
    hash_password p salt = .ok (bcrypt_hashpw p salt)
    ∧ verify_password p (bcrypt_hashpw p salt) = .ok true
    ∧ verify_password p2 (bcrypt_hashpw p salt) = .ok false :=
  hash_verify_roundtrip_aux p p2 salt hne hlen hne2

/-- Witness for C7 at concrete inputs. -/
theorem hash_verify_roundtrip_witness :
    hash_password [1] 0 = .ok (bcrypt_hashpw [1] 0)
    ∧ verify_password [1] (bcrypt_hashpw [1] 0) = .ok true
    ∧ verify_password [2] (bcrypt_hashpw [1] 0) = .ok false :=
  hash_verify_roundtrip [1] [2] 0 (by decide) (by decide) (by decide)

/-! ## C3 — cross-verification of the two token classes -/

/-- C3: with the two independent secrets the codec is configured with,
verifying an access token as a refresh token fails, and verifying a refresh
token as an access token fails, for every subject, issue time and
verification time: the signature check rejects the wrong secret. -/
theorem cross_verification_fails (s : Settings)
    (hk : s.SECRET_KEY ≠ s.REFRESH_TOKEN_SECRET) (uid : Nat)
    (now : Int) (jti : Nat) (now2 : Int) :
    decode_refresh_token s (create_access_token s now jti
        (some (.uuidStr uid))) now2 = .error .invalidSignature
    ∧ decode_access_token s (create_refresh_token s now jti
        (some (.uuidStr uid))) now2 = .error .invalidSignature := by
  constructor
  · simp [decode_refresh_token, create_access_token, jwt_encode, jwt_decode, hk]
  · simp [decode_access_token, create_refresh_token, jwt_encode, jwt_decode,
      (Ne.symm hk)]

/-- Witness for C3 at concrete inputs. -/
theorem cross_verification_fails_witness :
    decode_refresh_token ⟨1, 2, 3, 15, 7, [10, 11]⟩
      (create_access_token ⟨1, 2, 3, 15, 7, [10, 11]⟩ 0 9
        (some (.uuidStr 5))) 1 = .error .invalidSignature
    ∧ decode_access_token ⟨1, 2, 3, 15, 7, [10, 11]⟩
      (create_refresh_token ⟨1, 2, 3, 15, 7, [10, 11]⟩ 0 9
        (some (.uuidStr 5))) 1 = .error .invalidSignature :=
  cross_verification_fails ⟨1, 2, 3, 15, 7, [10, 11]⟩ (by decide) 5 0 9 1

/-! ## Concrete fixtures shared by witnesses and counterexamples -/

/-- Concrete settings: access secret 1, refresh secret 2, algorithm 3,
issuer bytes [10, 11]. -/
def cS : Settings := ⟨1, 2, 3, 15, 7, [10, 11]⟩

/-- Concrete fresh values for a first token-pair creation. -/
def cFr : Fresh := ⟨201, 202, 203⟩

/-- Concrete fresh values for a second token-pair creation. -/
def cFr2 : Fresh := ⟨301, 302, 303⟩

/-! ## C8 — issuer checking -/

/-- C8 counterexample: a token whose `iss` claim differs from the configured
issuer, signed with the correct access secret and algorithm and unexpired,
verifies successfully — the claim that verification fails whenever the
issuer does not match is false of the code (no `issuer` argument is passed
to `jwt.decode`, so PyJWT skips the issuer check). -/
theorem issuer_unchecked_counterexample :
    (⟨⟨some (.uuidStr 5), 100, 0, [99], 1, strAccess⟩, 1, 3⟩ : Token).payload.iss
        ≠ cS.TOKEN_ISSUER
    ∧ decode_access_token cS
        ⟨⟨some (.uuidStr 5), 100, 0, [99], 1, strAccess⟩, 1, 3⟩ 0
        = .ok ⟨some (.uuidStr 5), 100, 0, [99], 1, strAccess⟩ := by decide

/-- C8 amended: `decode_access_token` and `decode_refresh_token` fail on a
wrong secret, wrong algorithm, or expiry, but perform no issuer check at
all: the verification outcome is unchanged under an arbitrary replacement of
the `iss` claim. -/
theorem token_verification_no_issuer_check (s : Settings) (tok : Token)
    (now : Int) (i : Bytes) :
    (tok.key ≠ s.SECRET_KEY → exOk (decode_access_token s tok now) = false)
    ∧ (tok.alg ≠ s.ALGORITHM → exOk (decode_access_token s tok now) = false)
    ∧ (tok.payload.exp ≤ now → exOk (decode_access_token s tok now) = false)
    ∧ exOk (decode_access_token s
        ⟨⟨tok.payload.sub, tok.payload.exp, tok.payload.iat, i,
          tok.payload.jti, tok.payload.type⟩, tok.key, tok.alg⟩ now)
        = exOk (decode_access_token s tok now)
    ∧ (tok.key ≠ s.REFRESH_TOKEN_SECRET →
        exOk (decode_refresh_token s tok now) = false)
    ∧ (tok.payload.exp ≤ now → exOk (decode_refresh_token s tok now) = false)
    ∧ exOk (decode_refresh_token s
        ⟨⟨tok.payload.sub, tok.payload.exp, tok.payload.iat, i,
          tok.payload.jti, tok.payload.type⟩, tok.key, tok.alg⟩ now)
        = exOk (decode_refresh_token s tok now) := by
  refine ⟨fun hkey => ?_, fun halg => ?_, fun hexp => ?_, ?_,
    fun hkey => ?_, fun hexp => ?_, ?_⟩ <;>
    simp only [decode_access_token, decode_refresh_token, jwt_decode] <;>
    split_ifs <;> simp_all [exOk]

/-- Witness for the amended C8 theorem at concrete inputs. -/
theorem token_verification_no_issuer_check_witness :
    exOk (decode_access_token cS ⟨⟨none, 1, 0, [], 0, []⟩, 5, 3⟩ 0) = false
    ∧ exOk (decode_access_token cS ⟨⟨none, 1, 0, [99], 0, []⟩, 1, 3⟩ 0)
        = exOk (decode_access_token cS ⟨⟨none, 1, 0, [], 0, []⟩, 1, 3⟩ 0) :=
  ⟨(token_verification_no_issuer_check cS ⟨⟨none, 1, 0, [], 0, []⟩, 5, 3⟩ 0
      []).1 (by decide),
   (token_verification_no_issuer_check cS ⟨⟨none, 1, 0, [], 0, []⟩, 1, 3⟩ 0
      [99]).2.2.2.1⟩

/-! ## C9 — email uniqueness vs soft delete -/

/-- A user row owning email [7, 7] that has been soft-deleted. -/
def c9UserDel : UserRow := ⟨1, [7, 7], .wellFormed [1] 0, true, false, true⟩

/-- C9: the application-layer check indeed treats the soft-deleted owner's
email as free (`email_exists` is false) and a register against a live owner
fails with EmailTaken — but registering the email of a soft-deleted user
does not succeed: the INSERT violates the unconditional UNIQUE constraint on
`users.email` and escapes as an uncaught IntegrityError. -/
theorem register_email_unique_over_all_rows :
    email_exists ⟨[c9UserDel], []⟩ [7, 7] none = false
    ∧ register cS ⟨[c9UserDel], []⟩ [7, 7] [1, 2, 3] none 0 2 0 cFr
        = .error (.uncaught .integrityError)
    ∧ register cS ⟨[⟨1, [7, 7], .wellFormed [1] 0, true, false, false⟩], []⟩
        [7, 7] [1, 2, 3] none 0 2 0 cFr = .error .emailTaken := by decide

/-! ## C4 — malformed subject claim on refresh -/

/-- C4: a refresh token that verifies structurally but carries a malformed
`sub` (a non-UUID string) or a missing `sub` makes `refresh_tokens` raise an
uncaught Python exception (`uuid.UUID` at auth_service.py line 142 sits
outside the try/except) instead of the typed TokenInvalid error. -/
theorem refresh_malformed_sub_uncaught :
    refresh_tokens cS ⟨[], []⟩ (create_refresh_token cS 0 7 (some .nonUuidStr))
        none 1 cFr = .error (.uncaught .valueError)
    ∧ refresh_tokens cS ⟨[], []⟩ (create_refresh_token cS 0 7 none)
        none 1 cFr = .error (.uncaught .typeError) := by decide

/-! ## C2 — stock adjustment under concurrency -/

/-- C2: `ProductService.update_stock` is an application-layer
read-modify-write, so under the interleaving in which both `decrease(7)`
calls read the stock (10) before either writes, both succeed and the final
stock is 3 — 14 units sold from a stock of 10 — instead of exactly one
success and one InsufficientStock failure.  The repository's
`atomic_update_stock`, which the service never calls, would have allowed
exactly one of the sequentialised decrements to succeed. -/
theorem concurrent_decrease_oversell :
    decrease_stock_racy ⟨[⟨1, 10, true, false⟩]⟩ 1 7 7
      = (.ok ⟨1, 3, true, false⟩, .ok ⟨1, 3, true, false⟩,
          ⟨[⟨1, 3, true, false⟩]⟩)
    ∧ atomic_update_stock ⟨[⟨1, 10, true, false⟩]⟩ 1 (-7)
        = .ok (⟨[⟨1, 3, true, false⟩]⟩, some ⟨1, 3, true, false⟩)
    ∧ atomic_update_stock ⟨[⟨1, 3, true, false⟩]⟩ 1 (-7)
        = .ok (⟨[⟨1, 3, true, false⟩]⟩, none) := by decide

/-! ## C10 — refresh never consults the user record -/

/-- C10: the refresh operation never consults the user record: for a user
whose `is_active` flag is false, a refresh call presenting one of that
user's still-valid refresh tokens succeeds and issues a new pair, while
login for the same user fails with AccountInactive.  The hypotheses state
that the token verifies for this user, that its session row is present and
valid, and that the fresh identifiers do not collide with existing rows. -/
theorem refresh_ignores_user_state
    (s : Settings) (users : List UserRow) (ts : List TokenRow) (u : UserRow)
    (tok : Token) (row : TokenRow) (pw : Bytes) (di : Option Bytes)
    (now : Int) (fr : Fresh)
    (hmail : get_by_email ⟨users, ts⟩ u.email false = .ok (some u))
    (hactive : u.is_active = false)
    (hpw : verify_password_bool pw u.hashed_password = true)
    (halg : tok.alg = s.ALGORITHM)
    (hkey : tok.key = s.REFRESH_TOKEN_SECRET)
    (hexp : now < tok.payload.exp)
    (hsub : tok.payload.sub = some (.uuidStr u.id))
    (hget : get_by_token_hash ⟨users, ts⟩ tok false false = .ok (some row))
    (hrow : row.user_id = u.id)
    (hvalid : is_token_valid ⟨users, ts⟩ tok now = true)
    (hfh : ∀ r ∈ ts, r.token_hash ≠
      create_refresh_token s now fr.refreshJti (some (.uuidStr u.id)))
    (hfi : ∀ r ∈ ts, r.id ≠ fr.rowId) :
    login s ⟨users, ts⟩ u.email pw di now fr = .error .accountInactive
    ∧ exOk (refresh_tokens s ⟨users, ts⟩ tok di now fr) = true := by
  constructor
  · simp only [login]
    rw [hmail]
    simp [hpw, hactive]
  · have hdec : decode_refresh_token s tok now = .ok tok.payload := by
      unfold decode_refresh_token
      exact (jwt_decode_ok_iff tok s.REFRESH_TOKEN_SECRET [s.ALGORITHM] now
        tok.payload).mpr ⟨by simp [halg], hkey, hexp, rfl⟩
    have hany1 : ((revoke_token ⟨users, ts⟩ tok).1).tokens.any
        (fun r => r.token_hash ==
          create_refresh_token s now fr.refreshJti (some (.uuidStr u.id)))
          = false := by
      rw [List.any_eq_false]
      intro r' hr'
      obtain ⟨r, hr, hh, _⟩ := mem_revoke_token ⟨users, ts⟩ tok r' hr'
      simp only [hh]
      simpa using hfh r hr
    have hany2 : ((revoke_token ⟨users, ts⟩ tok).1).tokens.any
        (fun r => r.id == fr.rowId) = false := by
      rw [List.any_eq_false]
      intro r' hr'
      obtain ⟨r, hr, _, hid, _⟩ := mem_revoke_token ⟨users, ts⟩ tok r' hr'
      simp only [hid]
      simpa using hfi r hr
    have hcreate : _create_tokens_for_user s (revoke_token ⟨users, ts⟩ tok).1
        u.id di now fr = .ok
          (⟨((revoke_token ⟨users, ts⟩ tok).1).users,
            ((revoke_token ⟨users, ts⟩ tok).1).tokens ++
            [⟨fr.rowId, create_refresh_token s now fr.refreshJti
                (some (.uuidStr u.id)), u.id,
              now + s.REFRESH_TOKEN_EXPIRE_DAYS * 86400, false, false, di⟩]⟩,
          ⟨create_access_token s now fr.accessJti (some (.uuidStr u.id)),
            create_refresh_token s now fr.refreshJti (some (.uuidStr u.id))⟩) :=
      (create_tokens_ok_iff s (revoke_token ⟨users, ts⟩ tok).1 u.id di now fr
        _ _).mpr ⟨hany1, hany2, rfl, rfl⟩
    simp only [refresh_tokens]
    rw [hdec]
    simp only [hsub, uuid_UUID, hash_refresh_token]
    rw [hget]
    simp only [hrow, bne_self_eq_false, Bool.false_eq_true, if_false, hvalid,
      Bool.not_true, hcreate]
    rfl

/-- A deactivated user owning a still-valid session. -/
def c10User : UserRow := ⟨5, [7, 7], bcrypt_hashpw [1, 2, 3] 0, false, false, false⟩

/-- The refresh token backing that session. -/
def c10Tok : Token := create_refresh_token cS 0 99 (some (.uuidStr 5))

/-- The session row backing that token. -/
def c10Row : TokenRow := ⟨10, c10Tok, 5, 1000, false, false, none⟩

/-- Witness for C10 at concrete inputs. -/
theorem refresh_ignores_user_state_witness :
    login cS ⟨[c10User], [c10Row]⟩ c10User.email [1, 2, 3] none 1 cFr
      = .error .accountInactive
    ∧ exOk (refresh_tokens cS ⟨[c10User], [c10Row]⟩ c10Tok none 1 cFr)
      = true :=
  refresh_ignores_user_state cS [c10User] [c10Row] c10User c10Tok c10Row
    [1, 2, 3] none 1 cFr (by decide) (by decide) (by decide) (by decide)
    (by decide) (by decide) (by decide) (by decide) (by decide) (by decide)
    (by decide) (by decide)

/-! ## C1 — refresh-token rotation is single-use -/

/-- The image under `revoke_token` of a stored row is stored and keeps its
fingerprint. -/
theorem revoke_token_hash_image (db : DB) (th : Token) (r : TokenRow)
    (hr : r ∈ db.tokens) :
    ∃ r' ∈ ((revoke_token db th).1).tokens, r'.token_hash = r.token_hash := by
  simp only [revoke_token, List.mem_map]
  by_cases hc : (r.token_hash == th && !r.is_deleted && !r.is_revoked) = true
  · exact ⟨{ r with is_revoked := true }, ⟨r, hr, by rw [if_pos hc]⟩, rfl⟩
  · exact ⟨r, ⟨r, hr, by rw [if_neg hc]⟩, rfl⟩

/-- After `revoke_token db th`, every stored row carrying fingerprint `th`
that is not deleted is revoked. -/
theorem revoke_token_revokes (db : DB) (th : Token) :
    ∀ r' ∈ ((revoke_token db th).1).tokens, r'.token_hash = th →
      r'.is_deleted = false → r'.is_revoked = true := by
  intro r' hr' hh hd
  simp only [revoke_token, List.mem_map] at hr'
  obtain ⟨r, hr, hmap⟩ := hr'
  by_cases hc : (r.token_hash == th && !r.is_deleted && !r.is_revoked) = true
  · rw [if_pos hc] at hmap
    rw [← hmap]
  · rw [if_neg hc] at hmap
    subst hmap
    cases hrev : r.is_revoked with
    | true => rfl
    | false => exact absurd (by simp [hh, hd, hrev]) hc

/-- C1: refresh-token rotation is single-use.  Whenever a refresh call
succeeds, the response carries a brand-new refresh token (distinct from the
presented one) whose session record is valid, every stored session record
with the presented token's fingerprint has been revoked, and a subsequent
refresh call presenting the same original token (still structurally valid at
the later time) fails with SessionNotFound. -/
theorem refresh_rotation_single_use
    (s : Settings) (db : DB) (tok : Token) (di di2 : Option Bytes)
    (now now2 : Int) (fr fr2 : Fresh) (db' : DB) (resp : TokenResponse)
    (h : refresh_tokens s db tok di now fr = .ok (db', resp))
    (hexp2 : now2 < tok.payload.exp)
    (hdays : 0 < s.REFRESH_TOKEN_EXPIRE_DAYS) :
    resp.refresh_token ≠ tok
    ∧ is_token_valid db' (hash_refresh_token resp.refresh_token) now = true
    ∧ (∀ r ∈ db'.tokens, r.token_hash = tok → r.is_deleted = false →
        r.is_revoked = true)
    ∧ refresh_tokens s db' tok di2 now2 fr2 = .error .sessionNotFound := by
  simp only [refresh_tokens, hash_refresh_token] at h
  split at h
  · simp at h
  next p hdec =>
    obtain ⟨halgmem, hkey, hexp, hp⟩ :=
      (jwt_decode_ok_iff tok s.REFRESH_TOKEN_SECRET [s.ALGORITHM] now p).mp hdec
    subst hp
    split at h
    · simp at h
    next uid huu =>
      split at h
      · simp at h
      · simp at h
      next row hget =>
        split at h
        · simp at h
        next hne =>
          split at h
          · simp at h
          next hval =>
            obtain ⟨hany1, hany2, hdb', hresp⟩ :=
              (create_tokens_ok_iff s (revoke_token db tok).1 uid di now fr
                db' resp).mp h
            have hfilter : (db.tokens.filter fun r =>
                r.token_hash == tok && (false || !r.is_revoked)
                  && (false || !r.is_deleted)) = [row] :=
              (scalar_one_or_none_ok_some _ _).mp hget
            have hrowmem : row ∈ db.tokens ∧ row.token_hash = tok := by
              have hm : row ∈ db.tokens.filter fun r =>
                  r.token_hash == tok && (false || !r.is_revoked)
                    && (false || !r.is_deleted) := by
                rw [hfilter]; exact List.mem_singleton.mpr rfl
              have := List.mem_filter.mp hm
              refine ⟨this.1, ?_⟩
              have hb := this.2
              simp only [Bool.and_eq_true, beq_iff_eq] at hb
              exact hb.1.1
            have hne_new : create_refresh_token s now fr.refreshJti
                (some (.uuidStr uid)) ≠ tok := by
              intro hcon
              obtain ⟨r', hr', hh'⟩ :=
                revoke_token_hash_image db tok row hrowmem.1
              have := List.any_eq_false.mp hany1 r' hr'
              apply this
              rw [hh', hrowmem.2, hcon]
              exact beq_self_eq_true tok
            refine ⟨?_, ?_, ?_, ?_⟩
            · rw [hresp]
              exact hne_new
            · rw [hdb', hresp]
              have hlt : now < now + s.REFRESH_TOKEN_EXPIRE_DAYS * 86400 :=
                lt_add_of_pos_right now (mul_pos hdays (by norm_num))
              simp only [is_token_valid, hash_refresh_token]
              apply List.any_eq_true.mpr
              refine ⟨⟨fr.rowId, create_refresh_token s now fr.refreshJti
                  (some (.uuidStr uid)), uid,
                  now + s.REFRESH_TOKEN_EXPIRE_DAYS * 86400, false, false, di⟩,
                List.mem_append_right _ (List.mem_singleton.mpr rfl), ?_⟩
              simp [hlt]
            · rw [hdb']
              intro r hr hh hd
              rcases List.mem_append.mp hr with hr1 | hr2
              · exact revoke_token_revokes db tok r hr1 hh hd
              · rw [List.mem_singleton.mp hr2] at hh
                exact absurd hh hne_new
            · have hdec2 : decode_refresh_token s tok now2 = .ok tok.payload :=
                (jwt_decode_ok_iff tok s.REFRESH_TOKEN_SECRET [s.ALGORITHM]
                  now2 tok.payload).mpr ⟨halgmem, hkey, hexp2, rfl⟩
              have hget2 : get_by_token_hash db' tok false false = .ok none := by
                rw [hdb']
                simp only [get_by_token_hash, List.filter_append,
                  filter_after_revoke]
                rw [scalar_one_or_none_ok_none]
                simp [beq_eq_false_iff_ne.mpr hne_new]
              simp only [refresh_tokens, hash_refresh_token, hdec2, huu,
                hget2]

/-- A concrete refresh token for user 5, issued at time 0. -/
def c1Tok : Token := create_refresh_token cS 0 99 (some (.uuidStr 5))

/-- The refresh token the first rotation issues at time 1. -/
def c1NewTok : Token := create_refresh_token cS 1 202 (some (.uuidStr 5))

/-- State before the first refresh: one active session row for `c1Tok`. -/
def c1DB0 : DB := ⟨[], [⟨10, c1Tok, 5, 1000, false, false, none⟩]⟩

/-- State after the first refresh: the old row revoked, the new row active. -/
def c1DB1 : DB :=
  ⟨[], [⟨10, c1Tok, 5, 1000, true, false, none⟩,
        ⟨203, c1NewTok, 5, 604801, false, false, none⟩]⟩

/-- The pair the first refresh returns. -/
def c1Resp : TokenResponse :=
  ⟨create_access_token cS 1 201 (some (.uuidStr 5)), c1NewTok⟩

/-- Witness for C1 at concrete inputs. -/
theorem refresh_rotation_single_use_witness :
    refresh_tokens cS c1DB1 c1Tok none 2 cFr2 = .error .sessionNotFound
    ∧ c1Resp.refresh_token ≠ c1Tok :=
  have h := refresh_rotation_single_use cS c1DB0 c1Tok none none 1 2 cFr cFr2
    c1DB1 c1Resp (by decide) (by decide) (by decide)
  ⟨h.2.2.2, h.1⟩

/-! ## C5 — change_password invalidates everything -/

/-- Success characterisation of `hash_password`. -/
theorem hash_password_ok_iff (p : Bytes) (salt : Nat) (hs : HashStr) :
    hash_password p salt = .ok hs ↔
      p.length ≤ BCRYPT_MAX_BYTES ∧ hs = bcrypt_hashpw p salt := by
  unfold hash_password _ensure_password_length
  split_ifs with h1 <;> simp_all [not_lt, eq_comm]

/-- A password that verifies against some stored hash is nonempty and within
the 72-byte cap. -/
theorem verify_password_bool_true_elim (p : Bytes) (hs : HashStr)
    (h : verify_password_bool p hs = true) :
    p ≠ [] ∧ p.length ≤ BCRYPT_MAX_BYTES := by
  constructor
  · intro hp
    rw [hp] at h
    simp [verify_password_bool, verify_password] at h
  · by_contra hl
    rw [not_le] at hl
    have hp : p ≠ [] := by
      intro hp
      rw [hp] at h
      simp [verify_password_bool, verify_password] at h
    simp [verify_password_bool, verify_password, _ensure_password_length,
      hp, hl] at h

/-- `revoke_all_user_tokens` keeps the user table unchanged. -/
theorem revoke_all_users (db : DB) (uid : Nat) :
    ((revoke_all_user_tokens db uid).1).users = db.users := rfl

/-- Every row of the state after `revoke_all_user_tokens` comes from a source
row with the same values in every column except possibly `is_revoked`. -/
theorem mem_revoke_all (db : DB) (uid : Nat) (r' : TokenRow)
    (h : r' ∈ ((revoke_all_user_tokens db uid).1).tokens) :
    ∃ r ∈ db.tokens, r'.token_hash = r.token_hash ∧ r'.id = r.id
      ∧ r'.user_id = r.user_id ∧ r'.is_deleted = r.is_deleted
      ∧ r'.expires_at = r.expires_at := by
  simp only [revoke_all_user_tokens, List.mem_map] at h
  obtain ⟨r, hr, hmap⟩ := h
  refine ⟨r, hr, ?_⟩
  by_cases hc : (r.user_id == uid && !r.is_deleted && !r.is_revoked) = true <;>
    simp [hc] at hmap <;> simp [← hmap]

/-- After `revoke_all_user_tokens db uid`, every stored non-deleted row of
that user is revoked. -/
theorem revoke_all_revokes (db : DB) (uid : Nat) :
    ∀ r' ∈ ((revoke_all_user_tokens db uid).1).tokens, r'.user_id = uid →
      r'.is_deleted = false → r'.is_revoked = true := by
  intro r' hr' hh hd
  simp only [revoke_all_user_tokens, List.mem_map] at hr'
  obtain ⟨r, hr, hmap⟩ := hr'
  by_cases hc : (r.user_id == uid && !r.is_deleted && !r.is_revoked) = true
  · rw [if_pos hc] at hmap
    rw [← hmap]
  · rw [if_neg hc] at hmap
    subst hmap
    cases hrev : r.is_revoked with
    | true => rfl
    | false => exact absurd (by simp [hh, hd, hrev]) hc

/-- C5: a successful `change_password` with the correct old password persists
the new password hash on the user row and revokes every non-revoked session
record of that user, so that afterwards login with the old password fails
with InvalidCredentials, login with the new password succeeds, and any
refresh token issued before the change (still structurally valid) fails on
refresh with SessionNotFound.  The hypotheses pin the user row, a pre-change
session row, and non-collision of the fresh identifiers the new login
consumes. -/
theorem change_password_invalidates
    (s : Settings) (db : DB) (uid : Nat) (u : UserRow)
    (old new : Bytes) (salt : Nat) (db' : DB)
    (tok : Token) (row : TokenRow) (di di2 : Option Bytes)
    (now now2 : Int) (fr fr2 : Fresh)
    (h : change_password db uid old new salt = .ok db')
    (hu : user_get_by_id db uid false = .ok (some u))
    (hmail : get_by_email db u.email false = .ok (some u))
    (hne : old ≠ new)
    (hnew : new ≠ [])
    (hactive : u.is_active = true)
    (hfh : ∀ r ∈ db.tokens, r.token_hash ≠
      create_refresh_token s now fr.refreshJti (some (.uuidStr u.id)))
    (hfi : ∀ r ∈ db.tokens, r.id ≠ fr.rowId)
    (hget : get_by_token_hash db tok false false = .ok (some row))
    (hrowu : row.user_id = uid)
    (halg : tok.alg = s.ALGORITHM)
    (hkey : tok.key = s.REFRESH_TOKEN_SECRET)
    (hexp : now2 < tok.payload.exp)
    (huu : ∃ uid2, uuid_UUID tok.payload.sub = .ok uid2) :
    (∀ v ∈ db'.users, v.id = uid → v.is_deleted = false →
        v.hashed_password = bcrypt_hashpw new salt)
    ∧ (∀ r ∈ db'.tokens, r.user_id = uid → r.is_deleted = false →
        r.is_revoked = true)
    ∧ login s db' u.email old di now fr = .error .invalidCredentials
    ∧ exOk (login s db' u.email new di now fr) = true
    ∧ refresh_tokens s db' tok di2 now2 fr2 = .error .sessionNotFound := by
  simp only [change_password, hu] at h
  split at h
  · simp at h
  next hvneg =>
    split at h
    · simp at h
    next hp hhp =>
      obtain ⟨hnewlen, hpval⟩ := (hash_password_ok_iff new salt hp).mp hhp
      subst hpval
      simp only [user_repo_update_password, hu] at h
      have hdb' : db' = (revoke_all_user_tokens
          ⟨db.users.map fun v => if v.id == uid && !v.is_deleted then
              { u with hashed_password := bcrypt_hashpw new salt } else v,
            db.tokens⟩ uid).1 := (Except.ok.inj h).symm
      have hufilter : (db.users.filter fun v =>
          v.id == uid && (false || !v.is_deleted)) = [u] :=
        (scalar_one_or_none_ok_some _ _).mp hu
      have humem : u ∈ db.users ∧ u.id = uid ∧ u.is_deleted = false := by
        have hm : u ∈ db.users.filter fun v =>
            v.id == uid && (false || !v.is_deleted) := by
          rw [hufilter]; exact List.mem_singleton.mpr rfl
        have hmf := List.mem_filter.mp hm
        have hb := hmf.2
        simp only [Bool.and_eq_true, Bool.false_or, beq_iff_eq,
          Bool.not_eq_true'] at hb
        exact ⟨hmf.1, hb.1, hb.2⟩
      have hmailfilter : (db.users.filter fun v =>
          v.email == u.email && (false || !v.is_deleted)) = [u] :=
        (scalar_one_or_none_ok_some _ _).mp hmail
      have htokfilter : (db.tokens.filter fun r =>
          r.token_hash == tok && (false || !r.is_revoked)
            && (false || !r.is_deleted)) = [row] :=
        (scalar_one_or_none_ok_some _ _).mp hget
      have hrowflags : row.is_revoked = false ∧ row.is_deleted = false := by
        have hm : row ∈ db.tokens.filter fun r =>
            r.token_hash == tok && (false || !r.is_revoked)
              && (false || !r.is_deleted) := by
          rw [htokfilter]; exact List.mem_singleton.mpr rfl
        have hb := (List.mem_filter.mp hm).2
        simp only [Bool.and_eq_true, Bool.false_or, Bool.not_eq_true'] at hb
        exact ⟨hb.1.2, hb.2⟩
      have husers : db'.users = db.users.map fun v =>
          if v.id == uid && !v.is_deleted then
            { u with hashed_password := bcrypt_hashpw new salt } else v := by
        rw [hdb']; rfl
      have htokens : db'.tokens = db.tokens.map fun r =>
          if r.user_id == uid && !r.is_deleted && !r.is_revoked then
            { r with is_revoked := true } else r := by
        rw [hdb']; rfl
      have hgetmail : get_by_email db' u.email false
          = .ok (some { u with hashed_password := bcrypt_hashpw new salt }) := by
        simp only [get_by_email, husers]
        rw [filter_map_comm]
        rw [List.filter_congr (fun v hv => ?_), hmailfilter]
        · have hfUu : (if u.id == uid && !u.is_deleted then
              { u with hashed_password := bcrypt_hashpw new salt } else u)
              = { u with hashed_password := bcrypt_hashpw new salt } := by
            simp [humem.2.1, humem.2.2]
          rw [List.map_cons, List.map_nil, hfUu]
          rfl
        · by_cases hc : (v.id == uid && !v.is_deleted) = true
          · have hveq : v = u := eq_of_filter_eq_single hufilter hv
              (by simpa using hc)
            subst hveq
            simp [hc]
          · simp [hc]
      have hverify_old : verify_password_bool old
          (bcrypt_hashpw new salt) = false := by
        have hv := (hash_verify_roundtrip_aux new old salt hnew hnewlen
          hne).2.2
        simp [verify_password_bool, hv]
      have hverify_new : verify_password_bool new
          (bcrypt_hashpw new salt) = true := by
        have hv := (hash_verify_roundtrip_aux new old salt hnew hnewlen
          hne).2.1
        simp [verify_password_bool, hv]
      refine ⟨?_, ?_, ?_, ?_, ?_⟩
      · intro v hvmem hvid hvdel
        rw [husers] at hvmem
        obtain ⟨x, hx, hfx⟩ := List.mem_map.mp hvmem
        by_cases hc : (x.id == uid && !x.is_deleted) = true
        · rw [if_pos hc] at hfx
          rw [← hfx]
        · rw [if_neg hc] at hfx
          subst hfx
          exact absurd (by simp [hvid, hvdel]) hc
      · rw [hdb']
        exact revoke_all_revokes _ uid
      · simp only [login, hgetmail]
        simp [hverify_old]
      · have hany1 : (db'.tokens.any fun r => r.token_hash ==
            create_refresh_token s now fr.refreshJti
              (some (.uuidStr u.id))) = false := by
          rw [List.any_eq_false]
          intro r' hr'
          rw [hdb'] at hr'
          obtain ⟨r, hr, hh', _⟩ := mem_revoke_all _ uid r' hr'
          simp only [hh']
          simpa using hfh r hr
        have hany2 : (db'.tokens.any fun r => r.id == fr.rowId) = false := by
          rw [List.any_eq_false]
          intro r' hr'
          rw [hdb'] at hr'
          obtain ⟨r, hr, _, hid', _⟩ := mem_revoke_all _ uid r' hr'
          simp only [hid']
          simpa using hfi r hr
        have hcr := (create_tokens_ok_iff s db' u.id di now fr
          ⟨db'.users, db'.tokens ++
            [⟨fr.rowId, create_refresh_token s now fr.refreshJti
                (some (.uuidStr u.id)), u.id,
              now + s.REFRESH_TOKEN_EXPIRE_DAYS * 86400, false, false, di⟩]⟩
          ⟨create_access_token s now fr.accessJti (some (.uuidStr u.id)),
            create_refresh_token s now fr.refreshJti
              (some (.uuidStr u.id))⟩).mpr ⟨hany1, hany2, rfl, rfl⟩
        simp only [login, hgetmail]
        simp only [hverify_new, Bool.not_true, Bool.false_eq_true, if_false,
          hactive]
        simp only [hcr]
        rfl
      · have hdec2 : decode_refresh_token s tok now2 = .ok tok.payload :=
          (jwt_decode_ok_iff tok s.REFRESH_TOKEN_SECRET [s.ALGORITHM]
            now2 tok.payload).mpr ⟨by simp [halg], hkey, hexp, rfl⟩
        obtain ⟨uid2, huu2⟩ := huu
        have hget2 : get_by_token_hash db' tok false false = .ok none := by
          simp only [get_by_token_hash, htokens]
          rw [filter_map_comm]
          have hnil : (db.tokens.filter fun r =>
              (if r.user_id == uid && !r.is_deleted && !r.is_revoked then
                { r with is_revoked := true } else r).token_hash == tok
              && (false || !(if r.user_id == uid && !r.is_deleted
                  && !r.is_revoked then
                { r with is_revoked := true } else r).is_revoked)
              && (false || !(if r.user_id == uid && !r.is_deleted
                  && !r.is_revoked then
                { r with is_revoked := true } else r).is_deleted)) = [] := by
            rw [List.filter_eq_nil_iff]
            intro r hr
            by_cases hpt : (r.token_hash == tok && (false || !r.is_revoked)
                && (false || !r.is_deleted)) = true
            · have hreq : r = row := eq_of_filter_eq_single htokfilter hr hpt
              subst hreq
              have hhit : (r.user_id == uid && !r.is_deleted
                  && !r.is_revoked) = true := by
                simp [hrowu, hrowflags.1, hrowflags.2]
              simp [hhit]
            · by_cases hg : (r.user_id == uid && !r.is_deleted
                  && !r.is_revoked) = true
              · simp [hg]
              · simp only [if_neg hg]
                exact hpt
          rw [hnil]
          rfl
        simp only [refresh_tokens, hash_refresh_token, hdec2, huu2, hget2]

/-- The user changing their password, with the old password's hash stored. -/
def c5User : UserRow := ⟨5, [7, 7], bcrypt_hashpw [1, 2, 3] 0, true, false, false⟩

/-- A refresh token of that user issued before the change. -/
def c5Tok : Token := create_refresh_token cS 0 99 (some (.uuidStr 5))

/-- The session row backing that token. -/
def c5Row : TokenRow := ⟨10, c5Tok, 5, 1000, false, false, none⟩

/-- State before the password change. -/
def c5DB0 : DB := ⟨[c5User], [c5Row]⟩

/-- State after the password change: new hash persisted, session revoked. -/
def c5DB1 : DB :=
  ⟨[⟨5, [7, 7], bcrypt_hashpw [4, 5, 6] 1, true, false, false⟩],
   [⟨10, c5Tok, 5, 1000, true, false, none⟩]⟩

/-- Witness for C5 at concrete inputs. -/
theorem change_password_invalidates_witness :
    login cS c5DB1 c5User.email [1, 2, 3] none 1 cFr
      = .error .invalidCredentials
    ∧ exOk (login cS c5DB1 c5User.email [4, 5, 6] none 1 cFr) = true
    ∧ refresh_tokens cS c5DB1 c5Tok none 2 cFr2 = .error .sessionNotFound :=
  have h := change_password_invalidates cS c5DB0 5 c5User [1, 2, 3] [4, 5, 6]
    1 c5DB1 c5Tok c5Row none none 1 2 cFr cFr2 (by decide) (by decide)
    (by decide) (by decide) (by decide) (by decide) (by decide) (by decide)
    (by decide) (by decide) (by decide) (by decide) (by decide)
    ⟨5, by decide⟩
  ⟨h.2.2.1, h.2.2.2.1, h.2.2.2.2⟩

end FastapiShop
